import Mathlib

/-!
Shallow embedding of the Inventory-Management repository
(src/app/models.py, src/app/exceptions.py, src/app/database.py,
src/app/main.py) and proofs about it.

Conventions of the embedding:
* Python `int` is `Int`, `Decimal` is `Rat`, `str` is `String`,
  `Optional[T]` is `Option T`.
* Methods that raise become functions into `Except AppError _`;
  the exception classes of exceptions.py (and Python's `ValueError`)
  are the constructors of `AppError`.
* The MySQL connection of database.py is modelled as a pair of stores
  (`committed`, `working`): `cursor.execute` mutates `working`,
  `connection.commit()` copies `working` into `committed`, and
  `connection.rollback()` restores `working` from `committed`.
  `_execute_query(..., fetch=False)` executes the write and then
  commits (database.py lines 63-69), which the model reproduces.
* `CURRENT_TIMESTAMP` is an explicit `now : Nat × Nat` (year, month)
  argument threaded to the insert of a movement row.
-/

namespace Inventory

/-- Error taxonomy from src/app/exceptions.py plus Python's ValueError. -/
inductive AppError where
  | valueError (msg : String)
  | productNotFound (product_id : Int)
  | insufficientStock (product_name : String) (available : Int) (requested : Int)
  | duplicateProductCode (code : String)
  | databaseConnectionError (msg : String)
  deriving DecidableEq, Repr

/-- src/app/models.py, dataclass Product (fields used by the core). -/
structure Product where
  product_id : Int
  product_name : String
  product_code : String
  category_id : Option Int
  supplier_id : Option Int
  unit_price : Rat
  current_stock : Int
  minimum_stock : Int
  maximum_stock : Int
  is_active : Bool
  deriving DecidableEq, Repr

/-- Python str.strip(): drop whitespace from both ends. Implemented on the
character list so it evaluates by kernel reduction. -/
def pystrip (s : String) : String :=
  ⟨((s.data.dropWhile Char.isWhitespace).reverse.dropWhile
      Char.isWhitespace).reverse⟩

/-- src/app/models.py, Product.validate (lines 87-107). -/
def Product.validate (p : Product) : Except AppError Bool :=
  if p.product_name = "" ∨ (pystrip p.product_name).length = 0 then
    .error (.valueError "Product name is required")
  else if p.product_code = "" ∨ (pystrip p.product_code).length = 0 then
    .error (.valueError "Product code is required")
  else if p.unit_price ≤ 0 then
    .error (.valueError "Unit price must be greater than 0")
  else if p.current_stock < 0 then
    .error (.valueError "Current stock cannot be negative")
  else if p.minimum_stock < 0 then
    .error (.valueError "Minimum stock cannot be negative")
  else if p.maximum_stock ≤ p.minimum_stock then
    .error (.valueError "Maximum stock must be greater than minimum stock")
  else
    .ok true

/-- src/app/models.py, Product.is_low_stock (lines 109-111). -/
def Product.is_low_stock (p : Product) : Bool :=
  p.current_stock ≤ p.minimum_stock

/-- src/app/models.py, Product.is_overstock (lines 113-115). -/
def Product.is_overstock (p : Product) : Bool :=
  p.current_stock ≥ p.maximum_stock

/-- src/app/models.py, Product.get_stock_status (lines 117-124). -/
def Product.get_stock_status (p : Product) : String :=
  if p.is_low_stock then "Low Stock"
  else if p.is_overstock then "Overstock"
  else "Normal"

/-- The CASE expression computing stock_status in
DatabaseManager.get_products_summary (src/app/database.py lines 239-243). -/
def sql_stock_status (current_stock minimum_stock maximum_stock : Int) : String :=
  if current_stock ≤ minimum_stock then "Low Stock"
  else if current_stock ≥ maximum_stock then "Overstock"
  else "Normal"

/-- src/app/models.py, dataclass StockMovement (fields used by the core). -/
structure StockMovement where
  product_id : Int
  movement_type : String
  quantity : Int
  unit_price : Option Rat
  reference_number : Option String
  notes : Option String
  created_by : String
  deriving DecidableEq, Repr

/-- src/app/models.py, StockMovement.validate (lines 167-179). -/
def StockMovement.validate (m : StockMovement) : Except AppError Bool :=
  if m.movement_type ∉ ["IN", "OUT", "ADJUSTMENT"] then
    .error (.valueError "Movement type must be one of: IN, OUT, ADJUSTMENT")
  else if m.quantity ≤ 0 then
    .error (.valueError "Quantity must be greater than 0")
  else if m.product_id ≤ 0 then
    .error (.valueError "Product ID must be valid")
  else
    .ok true

/-- src/app/models.py, StockMovement.is_stock_increase (lines 181-183). -/
def StockMovement.is_stock_increase (m : StockMovement) : Bool :=
  (m.movement_type = "IN" ∨ m.movement_type = "ADJUSTMENT") ∧ m.quantity > 0

/-- src/app/models.py, StockMovement.is_stock_decrease (lines 185-187). -/
def StockMovement.is_stock_decrease (m : StockMovement) : Bool :=
  m.movement_type = "OUT" ∨ (m.movement_type = "ADJUSTMENT" ∧ m.quantity < 0)

/-- src/app/models.py, StockMovement.get_stock_change (lines 189-196). -/
def StockMovement.get_stock_change (m : StockMovement) : Int :=
  if m.movement_type = "IN" then m.quantity
  else if m.movement_type = "OUT" then -m.quantity
  else m.quantity

/-- src/app/models.py, dataclass Category (fields used by the core). -/
structure Category where
  category_id : Int
  category_name : String
  deriving DecidableEq, Repr

/-- A row of the stock_movements table. movement_date is reduced to the
(year, month) pair, the only part of the timestamp the queries read. -/
structure MovementRow where
  movement_id : Int
  product_id : Int
  movement_type : String
  quantity : Int
  unit_price : Option Rat
  reference_number : Option String
  notes : Option String
  created_by : String
  movement_year : Nat
  movement_month : Nat
  deriving DecidableEq, Repr

/-- The relational state the DatabaseManager operates on: the products and
stock_movements tables with their AUTO_INCREMENT counters. -/
structure Store where
  products : List Product
  movements : List MovementRow
  next_product_id : Int
  next_movement_id : Int
  deriving DecidableEq, Repr

/-- SELECT ... FROM products WHERE product_id = pid (first matching row). -/
def Store.findProduct (s : Store) (pid : Int) : Option Product :=
  s.products.find? (fun p => p.product_id == pid)

/-- INSERT INTO products: the row receives the AUTO_INCREMENT id; returns
the new store and last_insert_id. -/
def Store.insertProduct (s : Store) (p : Product) : Store × Int :=
  ({ s with
      products := s.products ++ [{ p with product_id := s.next_product_id }]
      next_product_id := s.next_product_id + 1 },
   s.next_product_id)

/-- UPDATE products SET current_stock = v WHERE product_id = pid. -/
def Store.updateStock (s : Store) (pid v : Int) : Store :=
  { s with
      products := s.products.map
        (fun p => if p.product_id == pid then { p with current_stock := v } else p) }

/-- INSERT INTO stock_movements (database.py lines 293-302): the row
receives the AUTO_INCREMENT id and a movement_date timestamp; returns the
new store and last_insert_id. -/
def Store.insertMovement (s : Store) (m : StockMovement) (now : Nat × Nat) :
    Store × Int :=
  ({ s with
      movements := s.movements ++
        [{ movement_id := s.next_movement_id
           product_id := m.product_id
           movement_type := m.movement_type
           quantity := m.quantity
           unit_price := m.unit_price
           reference_number := m.reference_number
           notes := m.notes
           created_by := m.created_by
           movement_year := now.1
           movement_month := now.2 }]
      next_movement_id := s.next_movement_id + 1 },
   s.next_movement_id)

/-- The MySQL connection: committed state plus the working state the open
transaction sees. -/
structure Conn where
  committed : Store
  working : Store
  deriving DecidableEq, Repr

/-- connection.rollback(): discard uncommitted work. -/
def Conn.rollback (c : Conn) : Conn :=
  { c with working := c.committed }

/-- _execute_query with fetch=False (database.py lines 57-69): execute the
write on the connection, then connection.commit(). -/
def Conn.executeWrite (c : Conn) (f : Store → Store × Int) : Conn × Int :=
  let r := f c.working
  ({ committed := r.1, working := r.1 }, r.2)

/-- DatabaseManager.get_product_by_id (database.py lines 173-202): a read;
raises ProductNotFoundError when no row matches. -/
def get_product_by_id (c : Conn) (product_id : Int) : Except AppError Product :=
  match c.working.findProduct product_id with
  | none => .error (.productNotFound product_id)
  | some p => .ok p

/-- DatabaseManager.update_product_stock (database.py lines 257-272):
re-fetches the product, rejects a negative target stock with ValueError,
then writes the new stock through _execute_query (which commits). -/
def update_product_stock (c : Conn) (product_id new_stock : Int) :
    Except AppError Bool × Conn :=
  match get_product_by_id c product_id with
  | .error e => (.error e, c)
  | .ok _ =>
    if new_stock < 0 then
      (.error (.valueError "Stock cannot be negative"), c)
    else
      let w := c.working.updateStock product_id new_stock
      (.ok true, { committed := w, working := w })

/-- DatabaseManager.create_product (database.py lines 146-171): validate,
count existing products with the same code and product_id != COALESCE(NULL, 0)
(i.e. product_id != 0), raise DuplicateProductCodeError on a match, else
insert and return last_insert_id. -/
def create_product (c : Conn) (p : Product) : Except AppError Int × Conn :=
  match p.validate with
  | .error e => (.error e, c)
  | .ok _ =>
    let count := (c.working.products.filter
      (fun q => q.product_code == p.product_code && q.product_id != 0)).length
    if count > 0 then
      (.error (.duplicateProductCode p.product_code), c)
    else
      let r := c.executeWrite (fun s => s.insertProduct p)
      (.ok r.2, r.1)

/-- DatabaseManager.create_stock_movement (database.py lines 275-316).
`failUpdate` injects a storage failure into the balance-update
_execute_query: per lines 71-74 that call rolls back and raises
DatabaseConnectionError, and the outer except block rolls back again.
Crucially, the movement INSERT was already committed by its own
_execute_query (line 68). -/
def create_stock_movement (failUpdate : Bool) (now : Nat × Nat) (c : Conn)
    (m : StockMovement) : Except AppError Int × Conn :=
  match m.validate with
  | .error e => (.error e, c)
  | .ok _ =>
    match get_product_by_id c m.product_id with
    | .error e => (.error e, c.rollback)
    | .ok product =>
      if product.current_stock + m.get_stock_change < 0 then
        (.error (.insufficientStock product.product_name product.current_stock
                  |m.get_stock_change|),
         c.rollback)
      else
        if failUpdate then
          (.error (.databaseConnectionError "Query execution failed"),
           (c.executeWrite (fun s => s.insertMovement m now)).1.rollback.rollback)
        else
          match update_product_stock
              (c.executeWrite (fun s => s.insertMovement m now)).1
              m.product_id (product.current_stock + m.get_stock_change) with
          | (.error e, c2) => (.error e, c2.rollback)
          | (.ok _, c2) =>
            (.ok (c.executeWrite (fun s => s.insertMovement m now)).2, c2)

/-- src/app/main.py, update_product_stock endpoint (lines 301-344): the
movement it builds from the request quantity. -/
def endpointMovement (product : Product) (product_id q : Int)
    (ref notes : Option String) : StockMovement :=
  if q > 0 then
    { product_id := product_id, movement_type := "IN", quantity := q
      unit_price := some product.unit_price, reference_number := ref
      notes := notes, created_by := "api_user" }
  else
    { product_id := product_id, movement_type := "OUT", quantity := |q|
      unit_price := some product.unit_price, reference_number := ref
      notes := notes, created_by := "api_user" }

/-- src/app/main.py, update_product_stock endpoint (lines 301-344):
fetch the product, build the movement, apply it through the ledger. -/
def update_product_stock_endpoint (failUpdate : Bool) (now : Nat × Nat)
    (c : Conn) (product_id q : Int) (ref notes : Option String) :
    Except AppError Int × Conn :=
  match get_product_by_id c product_id with
  | .error e => (.error e, c)
  | .ok product =>
    create_stock_movement failUpdate now c
      (endpointMovement product product_id q ref notes)

/-- A sequence of ledger requests applied in order; each entry carries its
failure-injection flag, timestamp and movement. -/
def applyRequests (c : Conn) (reqs : List (Bool × (Nat × Nat) × StockMovement)) :
    Conn :=
  reqs.foldl (fun c r => (create_stock_movement r.1 r.2.1 c r.2.2).2) c

/-- Every product row in the store has non-negative stock. -/
def StocksNonneg (s : Store) : Prop :=
  ∀ p ∈ s.products, 0 ≤ p.current_stock

instance (s : Store) : Decidable (StocksNonneg s) :=
  inferInstanceAs (Decidable (∀ p ∈ s.products, 0 ≤ p.current_stock))

/-- Between API calls the connection has no open transaction and all
committed stocks are non-negative. -/
def ConnInv (c : Conn) : Prop :=
  c.working = c.committed ∧ StocksNonneg c.committed

/-- A row of the result set of get_monthly_stock_report. -/
structure ReportRow where
  product_name : String
  category_name : Option String
  total_in : Int
  total_out : Int
  total_adjustments : Int
  total_movements : Nat
  deriving DecidableEq, Repr

/-- ORDER BY total_movements DESC, as a relation on report rows. -/
def rowGE (a b : ReportRow) : Prop :=
  b.total_movements ≤ a.total_movements

instance : DecidableRel rowGE := fun a b =>
  Nat.decLe b.total_movements a.total_movements

instance : IsTotal ReportRow rowGE :=
  ⟨fun a b => le_total b.total_movements a.total_movements⟩

instance : IsTrans ReportRow rowGE :=
  ⟨fun _ _ _ hab hbc => le_trans hbc hab⟩

/-- WHERE YEAR(sm.movement_date) = year AND MONTH(sm.movement_date) = month. -/
def inWindow (year month : Nat) (m : MovementRow) : Bool :=
  m.movement_year == year && m.movement_month == month

/-- The movement rows joined to a given product and falling in the window. -/
def windowMovements (movements : List MovementRow) (year month : Nat)
    (p : Product) : List MovementRow :=
  movements.filter (fun m => m.product_id == p.product_id && inWindow year month m)

/-- SUM(CASE WHEN sm.movement_type = t THEN sm.quantity ELSE 0 END). -/
def sumQuantityOfType (t : String) (ms : List MovementRow) : Int :=
  ms.foldl (fun acc m => acc + (if m.movement_type = t then m.quantity else 0)) 0

/-- LEFT JOIN categories: the category name of a product, when any. -/
def categoryNameOf (categories : List Category) (p : Product) : Option String :=
  p.category_id.bind
    (fun cid => (categories.find? (fun c => c.category_id == cid)).map
      (fun c => c.category_name))

/-- The aggregate row produced for one product group. -/
def reportRowFor (categories : List Category) (movements : List MovementRow)
    (year month : Nat) (p : Product) : ReportRow :=
  let ms := windowMovements movements year month p
  { product_name := p.product_name
    category_name := categoryNameOf categories p
    total_in := sumQuantityOfType "IN" ms
    total_out := sumQuantityOfType "OUT" ms
    total_adjustments := sumQuantityOfType "ADJUSTMENT" ms
    total_movements := ms.length }

/-- DatabaseManager.get_monthly_stock_report (database.py lines 371-390):
stock_movements JOIN products (grouped by product), restricted to the
(year, month) window, HAVING COUNT(*) > 0, ORDER BY total_movements DESC. -/
def get_monthly_stock_report (products : List Product)
    (categories : List Category) (movements : List MovementRow)
    (year month : Nat) : List ReportRow :=
  List.insertionSort rowGE
    (products.filterMap (fun p =>
      if (windowMovements movements year month p).length > 0 then
        some (reportRowFor categories movements year month p)
      else
        none))

/-- Sample product: the scenario product of spec.md section 8 after the IN
movement, at current_stock = 25. -/
def sampleProduct : Product :=
  { product_id := 1
    product_name := "Widget"
    product_code := "SKU-1"
    category_id := none
    supplier_id := none
    unit_price := 10
    current_stock := 25
    minimum_stock := 10
    maximum_stock := 100
    is_active := true }

/-- Store holding just the sample product. -/
def sampleStore : Store :=
  { products := [sampleProduct]
    movements := []
    next_product_id := 2
    next_movement_id := 1 }

/-- Idle connection over the sample store. -/
def sampleConn : Conn :=
  { committed := sampleStore, working := sampleStore }

/-- An OUT movement of quantity 30 against the sample product. -/
def outMovement30 : StockMovement :=
  { product_id := 1
    movement_type := "OUT"
    quantity := 30
    unit_price := none
    reference_number := none
    notes := none
    created_by := "system" }

/-- An OUT movement of quantity 5 against the sample product. -/
def outMovement5 : StockMovement :=
  { product_id := 1
    movement_type := "OUT"
    quantity := 5
    unit_price := none
    reference_number := none
    notes := none
    created_by := "system" }

/-- A duplicate-code candidate: valid fields, same code as the sample product. -/
def duplicateProduct : Product :=
  { product_id := 0
    product_name := "Gadget"
    product_code := "SKU-1"
    category_id := none
    supplier_id := none
    unit_price := 5
    current_stock := 0
    minimum_stock := 0
    maximum_stock := 20
    is_active := true }

/-- A fresh-code candidate product. -/
def freshProduct : Product :=
  { duplicateProduct with product_code := "SKU-2" }

/-- A sample stored movement row dated May 2024. -/
def sampleRow : MovementRow :=
  { movement_id := 7
    product_id := 1
    movement_type := "IN"
    quantity := 3
    unit_price := none
    reference_number := none
    notes := none
    created_by := "system"
    movement_year := 2024
    movement_month := 5 }

/-! ### Helper lemmas -/

theorem validate_nonpos_quantity (m : StockMovement)
    (ht : m.movement_type ∈ (["IN", "OUT", "ADJUSTMENT"] : List String))
    (hq : m.quantity ≤ 0) :
    m.validate = .error (.valueError "Quantity must be greater than 0") := by
  unfold StockMovement.validate
  rw [if_neg (not_not_intro ht), if_pos hq]

theorem StockMovement.validate_ok {m : StockMovement}
    (h : m.validate = .ok true) :
    m.movement_type ∈ (["IN", "OUT", "ADJUSTMENT"] : List String) ∧
      0 < m.quantity ∧ 0 < m.product_id := by
  unfold StockMovement.validate at h
  split_ifs at h with h1 h2 h3
  refine ⟨by simpa using h1, by omega, by omega⟩

theorem find?_map_updateStock (l : List Product) (pid v : Int) :
    (l.map (fun p =>
        if p.product_id == pid then { p with current_stock := v } else p)).find?
        (fun p => p.product_id == pid)
      = (l.find? (fun p => p.product_id == pid)).map
          (fun p => { p with current_stock := v }) := by
  induction l with
  | nil => rfl
  | cons q l ih =>
    by_cases hq : q.product_id = pid
    · simp [hq]
    · have hq2 : ¬ ((q.product_id == pid) = true) := by simpa using hq
      simp only [List.map_cons, if_neg hq2]
      rw [List.find?_cons_of_neg (a := q) _ hq2,
        List.find?_cons_of_neg (a := q) _ hq2]
      exact ih

theorem findProduct_updateStock (s : Store) (pid v : Int) :
    (s.updateStock pid v).findProduct pid
      = (s.findProduct pid).map (fun p => { p with current_stock := v }) := by
  unfold Store.updateStock Store.findProduct
  exact find?_map_updateStock s.products pid v

theorem stocksNonneg_updateStock {s : Store} (hs : StocksNonneg s) {v : Int}
    (hv : 0 ≤ v) (pid : Int) : StocksNonneg (s.updateStock pid v) := by
  intro p hp
  obtain ⟨q, hq, rfl⟩ := List.mem_map.mp hp
  by_cases hid : q.product_id == pid
  · simp only [hid, if_true]
    exact hv
  · simp only [hid, if_false, Bool.false_eq_true]
    exact hs q hq

theorem conn_rollback_inv {c : Conn} (h : StocksNonneg c.committed) :
    ConnInv c.rollback :=
  ⟨rfl, h⟩

theorem update_product_stock_inv (c : Conn) (pid v : Int) (h : ConnInv c) :
    ConnInv (update_product_stock c pid v).2 := by
  obtain ⟨hsync, hnn⟩ := h
  unfold update_product_stock
  split
  · exact ⟨hsync, hnn⟩
  · split
    · exact ⟨hsync, hnn⟩
    · refine ⟨rfl, ?_⟩
      have hw : StocksNonneg c.working := by rw [hsync]; exact hnn
      exact stocksNonneg_updateStock hw (by omega) pid

theorem create_stock_movement_inv (f : Bool) (now : Nat × Nat) (c : Conn)
    (m : StockMovement) (h : ConnInv c) :
    ConnInv (create_stock_movement f now c m).2 := by
  obtain ⟨hsync, hnn⟩ := h
  have hnnw : StocksNonneg c.working := by rw [hsync]; exact hnn
  have hc1 : ConnInv (c.executeWrite (fun s => s.insertMovement m now)).1 := by
    refine ⟨rfl, ?_⟩
    intro p hp
    exact hnnw p hp
  unfold create_stock_movement
  split
  · exact ⟨hsync, hnn⟩
  split
  · exact conn_rollback_inv hnn
  rename_i x product heq
  split
  · exact conn_rollback_inv hnn
  split
  · exact conn_rollback_inv hc1.2
  have h2 := update_product_stock_inv
    (c.executeWrite (fun s => s.insertMovement m now)).1
    m.product_id (product.current_stock + m.get_stock_change) hc1
  split
  case _ heq2 =>
    rw [heq2] at h2
    exact conn_rollback_inv h2.2
  case _ heq2 =>
    rw [heq2] at h2
    exact h2

theorem applyRequests_inv (reqs : List (Bool × (Nat × Nat) × StockMovement)) :
    ∀ c : Conn, ConnInv c → ConnInv (applyRequests c reqs) := by
  induction reqs with
  | nil => intro c h; exact h
  | cons r rs ih =>
    intro c h
    exact ih _ (create_stock_movement_inv r.1 r.2.1 c r.2.2 h)

theorem insufficient_reject (f : Bool) (now : Nat × Nat) (c : Conn)
    (m : StockMovement) (p : Product)
    (hsync : c.working = c.committed)
    (hval : m.validate = .ok true)
    (hfind : c.working.findProduct m.product_id = some p)
    (hneg : p.current_stock + m.get_stock_change < 0) :
    create_stock_movement f now c m =
      (.error (.insufficientStock p.product_name p.current_stock
        |m.get_stock_change|), c) := by
  have hroll : c.rollback = c := by
    cases c with
    | mk committed working =>
      simp only [Conn.rollback]
      simp_all
  unfold create_stock_movement
  rw [hval]
  simp only [get_product_by_id, hfind]
  rw [if_pos hneg, hroll]

/-! ### Claim theorems -/

/-- Claim C1. The spec claims the movement insert and the balance update
commit or roll back as one atomic unit, so that after a failed balance
update no movement record exists. The code commits the movement INSERT
inside _execute_query before the balance UPDATE runs, so when the UPDATE
fails (simulated storage failure) and everything is rolled back, the
committed store still holds the movement row for the failed attempt,
while the balance is unchanged. This contradicts the claim and the
function's own docstring ("atomically"). -/
theorem movement_persists_after_failed_balance_update :
    (create_stock_movement true (2024, 5) sampleConn outMovement5).1
        = .error (.databaseConnectionError "Query execution failed") ∧
    ((create_stock_movement true (2024, 5) sampleConn outMovement5).2).committed.movements.map
        (fun r => (r.movement_id, r.product_id, r.movement_type, r.quantity))
        = [(1, 1, "OUT", 5)] ∧
    ((create_stock_movement true (2024, 5) sampleConn outMovement5).2).committed.findProduct 1
        = some sampleProduct := by
  refine ⟨rfl, rfl, rfl⟩

/-- Claim C2: starting from non-negative stocks, no sequence of ledger
requests (with or without injected storage failures) ever drives a
committed stock negative; and a movement whose delta would take the
balance below zero is rejected with the insufficient-stock error and
returns the connection unchanged — nothing written. -/
theorem stock_never_negative (c : Conn) (hsync : c.working = c.committed)
    (hnn : StocksNonneg c.committed) :
    (∀ reqs, StocksNonneg (applyRequests c reqs).committed) ∧
    (∀ (f : Bool) (now : Nat × Nat) (m : StockMovement) (p : Product),
      m.validate = .ok true →
      c.working.findProduct m.product_id = some p →
      p.current_stock + m.get_stock_change < 0 →
      create_stock_movement f now c m =
        (.error (.insufficientStock p.product_name p.current_stock
          |m.get_stock_change|), c)) := by
  constructor
  · intro reqs
    exact (applyRequests_inv reqs c ⟨hsync, hnn⟩).2
  · intro f now m p hval hfind hneg
    exact insufficient_reject f now c m p hsync hval hfind hneg

/-- Witness for C2 at a concrete connection and request list. -/
theorem stock_never_negative_witness :
    StocksNonneg (applyRequests sampleConn
      [(false, (2024, 5), outMovement30), (false, (2024, 6), outMovement5)]).committed :=
  (stock_never_negative sampleConn rfl (by decide)).1 _

/-- Claim C3: for a validated movement the signed delta is +quantity for
IN, -quantity for OUT, and +quantity (positive after validation) for
ADJUSTMENT; a successful ledger application stores current_stock + delta
as the product's new balance. -/
theorem stock_change_spec (now : Nat × Nat) (c : Conn) (m : StockMovement)
    (p : Product)
    (hval : m.validate = .ok true)
    (hfind : c.working.findProduct m.product_id = some p)
    (hok : 0 ≤ p.current_stock + m.get_stock_change) :
    (m.movement_type = "IN" → m.get_stock_change = m.quantity) ∧
    (m.movement_type = "OUT" → m.get_stock_change = -m.quantity) ∧
    (m.movement_type = "ADJUSTMENT" →
      m.get_stock_change = m.quantity ∧ 0 < m.quantity) ∧
    (create_stock_movement false now c m).2.committed.findProduct m.product_id
      = some { p with current_stock := p.current_stock + m.get_stock_change } := by
  obtain ⟨htype, hq, hpid⟩ := StockMovement.validate_ok hval
  refine ⟨?_, ?_, ?_, ?_⟩
  · intro h
    simp [StockMovement.get_stock_change, h]
  · intro h
    rw [StockMovement.get_stock_change, h]
    simp
  · intro h
    rw [StockMovement.get_stock_change, h]
    simp [hq]
  · unfold create_stock_movement
    rw [hval]
    simp only [get_product_by_id, hfind]
    rw [if_neg (by omega)]
    simp only [Bool.false_eq_true, if_false]
    unfold update_product_stock get_product_by_id
    have hfind1 : ((c.executeWrite
        (fun s => s.insertMovement m now)).1).working.findProduct m.product_id
        = some p := hfind
    rw [hfind1]
    simp only
    rw [if_neg (by omega)]
    simp only
    rw [findProduct_updateStock]
    have hfind2 : ((c.executeWrite
        (fun s => s.insertMovement m now)).1).working.findProduct m.product_id
        = some p := hfind
    rw [hfind2]
    rfl

/-- Witness for C3: an OUT movement of 5 against stock 25 leaves 20. -/
theorem stock_change_spec_witness :
    (create_stock_movement false (2024, 5) sampleConn outMovement5).2.committed.findProduct
        outMovement5.product_id
      = some { sampleProduct with
          current_stock := sampleProduct.current_stock + outMovement5.get_stock_change } :=
  (stock_change_spec (2024, 5) sampleConn outMovement5 sampleProduct rfl rfl
    (by decide)).2.2.2

/-- Claim C4: an insufficient-stock rejection carries the product name,
the available quantity (current stock) and the requested quantity (the
absolute delta); concretely, an OUT of 30 against stock 25 fails with
available 25 and requested 30, and stock stays 25. -/
theorem insufficient_stock_error_payload (f : Bool) (now : Nat × Nat)
    (c : Conn) (m : StockMovement) (p : Product)
    (hsync : c.working = c.committed)
    (hval : m.validate = .ok true)
    (hfind : c.working.findProduct m.product_id = some p)
    (hneg : p.current_stock + m.get_stock_change < 0) :
    create_stock_movement f now c m =
      (.error (.insufficientStock p.product_name p.current_stock
        |m.get_stock_change|), c) ∧
    create_stock_movement false (2024, 5) sampleConn outMovement30 =
      (.error (.insufficientStock "Widget" 25 30), sampleConn) ∧
    (create_stock_movement false (2024, 5) sampleConn outMovement30).2.committed.findProduct 1
      = some sampleProduct := by
  refine ⟨insufficient_reject f now c m p hsync hval hfind hneg, rfl, rfl⟩

/-- Witness for C4 at the scenario input of spec.md section 8. -/
theorem insufficient_stock_error_payload_witness :
    create_stock_movement true (2024, 7) sampleConn outMovement30 =
      (.error (.insufficientStock sampleProduct.product_name
        sampleProduct.current_stock |outMovement30.get_stock_change|), sampleConn) :=
  (insufficient_stock_error_payload true (2024, 7) sampleConn outMovement30
    sampleProduct rfl rfl rfl (by decide)).1

/-- Claim C5: creating a product whose code matches a stored product (all
stored ids are non-zero, as AUTO_INCREMENT starts at 1) fails with the
duplicate-code error and leaves the connection unchanged; concretely,
creating the same fresh product twice succeeds exactly once, the second
attempt failing with the duplicate-code error and writing nothing. -/
theorem duplicate_code_rejected (c : Conn) (p q : Product)
    (hval : p.validate = .ok true)
    (hq : q ∈ c.working.products)
    (hcode : q.product_code = p.product_code)
    (hid : q.product_id ≠ 0) :
    create_product c p = (.error (.duplicateProductCode p.product_code), c) ∧
    (create_product sampleConn freshProduct).1 = .ok 2 ∧
    (create_product (create_product sampleConn freshProduct).2 freshProduct).1
      = .error (.duplicateProductCode "SKU-2") ∧
    (create_product (create_product sampleConn freshProduct).2 freshProduct).2
      = (create_product sampleConn freshProduct).2 := by
  refine ⟨?_, rfl, rfl, rfl⟩
  have hmem : q ∈ c.working.products.filter
      (fun r => r.product_code == p.product_code && r.product_id != 0) := by
    refine List.mem_filter.mpr ⟨hq, ?_⟩
    simp [hcode, hid]
  have hcount : (c.working.products.filter
      (fun r => r.product_code == p.product_code && r.product_id != 0)).length > 0 :=
    List.length_pos.mpr (List.ne_nil_of_mem hmem)
  unfold create_product
  rw [hval]
  simp only [if_pos hcount]

/-- Witness for C5: the sample store already holds code SKU-1, so a valid
candidate with code SKU-1 is rejected. -/
theorem duplicate_code_rejected_witness :
    create_product sampleConn duplicateProduct
      = (.error (.duplicateProductCode duplicateProduct.product_code), sampleConn) :=
  (duplicate_code_rejected sampleConn duplicateProduct sampleProduct rfl
    (by decide) rfl (by decide)).1

/-- Claim C6: the derived stock status is Low Stock when
current_stock <= minimum_stock, else Overstock when
current_stock >= maximum_stock, else Normal; the model method and the SQL
CASE expression agree, and the low-stock branch wins when both threshold
conditions hold. -/
theorem stock_status_spec (p : Product) :
    p.get_stock_status
        = sql_stock_status p.current_stock p.minimum_stock p.maximum_stock ∧
    (p.current_stock ≤ p.minimum_stock → p.get_stock_status = "Low Stock") ∧
    (¬ p.current_stock ≤ p.minimum_stock → p.maximum_stock ≤ p.current_stock →
      p.get_stock_status = "Overstock") ∧
    (¬ p.current_stock ≤ p.minimum_stock → ¬ p.maximum_stock ≤ p.current_stock →
      p.get_stock_status = "Normal") ∧
    (p.current_stock ≤ p.minimum_stock → p.maximum_stock ≤ p.current_stock →
      p.get_stock_status = "Low Stock") := by
  simp only [Product.get_stock_status, Product.is_low_stock, Product.is_overstock,
    sql_stock_status, decide_eq_true_eq, ge_iff_le]
  split_ifs with h1 h2 <;>
    refine ⟨?_, ?_, ?_, ?_, ?_⟩ <;> intros <;> first | rfl | trivial

/-- Witness for C6 at a product satisfying both threshold conditions. -/
theorem stock_status_spec_witness :
    Product.get_stock_status
        { sampleProduct with
            current_stock := 50, minimum_stock := 60, maximum_stock := 40 }
      = "Low Stock" :=
  (stock_status_spec
    { sampleProduct with
        current_stock := 50, minimum_stock := 60, maximum_stock := 40 }).2.2.2.2
    (by decide) (by decide)

/-- The emptiness test of Product.validate on a string field collapses to
emptiness of the stripped string. -/
theorem empty_or_strip_iff (s : String) :
    (s = "" ∨ (pystrip s).length = 0) ↔ (pystrip s).length = 0 := by
  constructor
  · rintro (h | h)
    · rw [h]
      rfl
    · exact h
  · exact Or.inr

/-- Claim C8: product validation succeeds exactly when name and code are
non-empty after trimming, unit_price > 0, current_stock >= 0,
minimum_stock >= 0 and maximum_stock > minimum_stock; each violation is
reported as the ValueError naming that field, the first failing check
winning. The embedding is a pure function of the product. -/
theorem product_validate_spec (p : Product) :
    (p.validate = .ok true ↔
      ((pystrip p.product_name).length ≠ 0 ∧ (pystrip p.product_code).length ≠ 0 ∧
       0 < p.unit_price ∧ 0 ≤ p.current_stock ∧ 0 ≤ p.minimum_stock ∧
       p.minimum_stock < p.maximum_stock)) ∧
    ((pystrip p.product_name).length = 0 →
      p.validate = .error (.valueError "Product name is required")) ∧
    ((pystrip p.product_name).length ≠ 0 → (pystrip p.product_code).length = 0 →
      p.validate = .error (.valueError "Product code is required")) ∧
    ((pystrip p.product_name).length ≠ 0 → (pystrip p.product_code).length ≠ 0 →
      p.unit_price ≤ 0 →
      p.validate = .error (.valueError "Unit price must be greater than 0")) ∧
    ((pystrip p.product_name).length ≠ 0 → (pystrip p.product_code).length ≠ 0 →
      0 < p.unit_price → p.current_stock < 0 →
      p.validate = .error (.valueError "Current stock cannot be negative")) ∧
    ((pystrip p.product_name).length ≠ 0 → (pystrip p.product_code).length ≠ 0 →
      0 < p.unit_price → 0 ≤ p.current_stock → p.minimum_stock < 0 →
      p.validate = .error (.valueError "Minimum stock cannot be negative")) ∧
    ((pystrip p.product_name).length ≠ 0 → (pystrip p.product_code).length ≠ 0 →
      0 < p.unit_price → 0 ≤ p.current_stock → 0 ≤ p.minimum_stock →
      p.maximum_stock ≤ p.minimum_stock →
      p.validate =
        .error (.valueError "Maximum stock must be greater than minimum stock")) := by
  simp only [Product.validate, empty_or_strip_iff]
  split_ifs with h1 h2 h3 h4 h5 h6 <;>
    refine ⟨?_, ?_, ?_, ?_, ?_, ?_, ?_⟩ <;>
      simp_all [not_le, not_lt]

/-- Witness for C8: the sample product validates. -/
theorem product_validate_spec_witness :
    Product.validate sampleProduct = .ok true :=
  (product_validate_spec sampleProduct).1.mpr (by decide)

/-- Claim C9: for a validated movement the computed stock change is
positive exactly for IN and ADJUSTMENT and negative exactly for OUT, and
is_stock_decrease holds exactly for OUT — the negative-quantity
ADJUSTMENT branch of is_stock_decrease is unreachable after validation. -/
theorem validated_movement_sign (m : StockMovement)
    (hval : m.validate = .ok true) :
    (0 < m.get_stock_change ↔
      (m.movement_type = "IN" ∨ m.movement_type = "ADJUSTMENT")) ∧
    (m.get_stock_change < 0 ↔ m.movement_type = "OUT") ∧
    (m.is_stock_decrease = true ↔ m.movement_type = "OUT") ∧
    ¬(m.movement_type = "ADJUSTMENT" ∧ m.quantity < 0) := by
  obtain ⟨htype, hq, hpid⟩ := StockMovement.validate_ok hval
  have hnlt : ¬ m.quantity < 0 := by omega
  have hneg : -m.quantity < 0 := by omega
  have hnpos : ¬ 0 < -m.quantity := by omega
  simp only [List.mem_cons, List.mem_singleton, List.not_mem_nil, or_false] at htype
  rcases htype with h | h | h <;>
    simp [StockMovement.get_stock_change, StockMovement.is_stock_decrease, h,
      hq, hnlt, hneg, hnpos]

/-- Witness for C9: the OUT sample movement is classified as a decrease. -/
theorem validated_movement_sign_witness :
    outMovement5.is_stock_decrease = true :=
  ((validated_movement_sign outMovement5 rfl).2.2.1).mpr rfl

/-- Claim C10: the stock-update endpoint maps positive request quantities
to an IN movement of that quantity and non-positive quantities to an OUT
movement of the absolute value; at quantity 0 the resulting OUT movement
of quantity 0 fails movement validation, no record is written and the
connection (hence every balance) is unchanged. -/
theorem endpoint_quantity_mapping (f : Bool) (now : Nat × Nat) (c : Conn)
    (pid q : Int) (prod : Product) (r notes : Option String)
    (hfind : c.working.findProduct pid = some prod) :
    (0 < q → endpointMovement prod pid q r notes =
      { product_id := pid, movement_type := "IN", quantity := q,
        unit_price := some prod.unit_price, reference_number := r,
        notes := notes, created_by := "api_user" }) ∧
    (q ≤ 0 → endpointMovement prod pid q r notes =
      { product_id := pid, movement_type := "OUT", quantity := |q|,
        unit_price := some prod.unit_price, reference_number := r,
        notes := notes, created_by := "api_user" }) ∧
    (q = 0 → update_product_stock_endpoint f now c pid q r notes =
      (.error (.valueError "Quantity must be greater than 0"), c)) := by
  refine ⟨?_, ?_, ?_⟩
  · intro h
    rw [endpointMovement, if_pos h]
  · intro h
    rw [endpointMovement, if_neg (by omega)]
  · intro h
    subst h
    unfold update_product_stock_endpoint
    simp only [get_product_by_id, hfind]
    rw [endpointMovement, if_neg (by omega)]
    have hv : StockMovement.validate
        { product_id := pid, movement_type := "OUT", quantity := |(0 : Int)|,
          unit_price := some prod.unit_price, reference_number := r,
          notes := notes, created_by := "api_user" }
        = .error (.valueError "Quantity must be greater than 0") :=
      validate_nonpos_quantity _
        (by decide : ("OUT" : String) ∈ ["IN", "OUT", "ADJUSTMENT"])
        (by decide : |(0 : Int)| ≤ 0)
    unfold create_stock_movement
    rw [hv]

/-- Witness for C10 at quantity 0 against the sample store. -/
theorem endpoint_quantity_mapping_witness :
    update_product_stock_endpoint false (2024, 5) sampleConn 1 0 none none =
      (.error (.valueError "Quantity must be greater than 0"), sampleConn) :=
  (endpoint_quantity_mapping false (2024, 5) sampleConn 1 0 sampleProduct
    none none rfl).2.2 rfl

/-- The grouped rows of the monthly report, before sorting, are the rows
of exactly the products with a movement in the window. -/
theorem report_filterMap (products : List Product) (categories : List Category)
    (movements : List MovementRow) (year month : Nat) :
    (products.filterMap (fun p =>
        if (windowMovements movements year month p).length > 0 then
          some (reportRowFor categories movements year month p)
        else
          none))
      = (products.filter
          (fun p => (windowMovements movements year month p).length > 0)).map
          (reportRowFor categories movements year month) := by
  induction products with
  | nil => rfl
  | cons p l ih =>
    by_cases h : (windowMovements movements year month p).length > 0 <;>
      simp [h, ih, List.filter_cons]

/-- Claim C7: the monthly report consists of exactly one aggregate row per
product with at least one movement dated in the window (per-product IN,
OUT and ADJUSTMENT totals and movement count), is ordered by movement
count descending, and every row has a positive movement count — a product
with no movement in the window is omitted. -/
theorem monthly_report_spec (products : List Product)
    (categories : List Category) (movements : List MovementRow)
    (year month : Nat) :
    List.Sorted rowGE
      (get_monthly_stock_report products categories movements year month) ∧
    (get_monthly_stock_report products categories movements year month).Perm
      ((products.filter
          (fun p => (windowMovements movements year month p).length > 0)).map
        (reportRowFor categories movements year month)) ∧
    ∀ row ∈ get_monthly_stock_report products categories movements year month,
      0 < row.total_movements := by
  refine ⟨List.sorted_insertionSort rowGE _, ?_, ?_⟩
  · rw [get_monthly_stock_report, report_filterMap]
    exact List.perm_insertionSort rowGE _
  · intro row hrow
    rw [get_monthly_stock_report, List.mem_insertionSort] at hrow
    obtain ⟨p, hp, hsome⟩ := List.mem_filterMap.mp hrow
    by_cases h : (windowMovements movements year month p).length > 0
    · rw [if_pos h] at hsome
      cases hsome
      simpa [reportRowFor] using h
    · rw [if_neg h] at hsome
      exact absurd hsome (by simp)

/-- Witness for C7: with one May 2024 movement, the sample product's row
appears in the May 2024 report with a positive movement count. -/
theorem monthly_report_spec_witness :
    0 < (reportRowFor [] [sampleRow] 2024 5 sampleProduct).total_movements :=
  (monthly_report_spec [sampleProduct] [] [sampleRow] 2024 5).2.2
    (reportRowFor [] [sampleRow] 2024 5 sampleProduct) (by decide)

end Inventory
